import Mathlib

/-!
# Verification of the OpenGL2DTemplate game core

Shallow embedding of `src/OpenGL2DTemplate/OpenGL2DTemplate.cpp`.

Modelling conventions:
* C `float` values are embedded as exact rationals (`ℚ`); every claim under
  study concerns comparisons and piecewise-affine arithmetic, which the
  rational model captures exactly.
* C `int` values are embedded as `ℤ`; the C cast `(int)x` from `float`
  truncates toward zero, embedded as `truncQ`.
* Global mutable state is gathered into a `GameState` record; each C++
  function that mutates globals becomes a function `GameState → ... → GameState`.
* `player.angleDeg` (set via `atan2f`, rendering-only) is not modelled:
  its value is irrational in general and no property under study reads it.
* Rendering code (`Display`, `draw*`, `print`) is not modelled.
-/

/-- Window width `W` (OpenGL2DTemplate.cpp line 15). -/
def W : ℚ := 1000

/-- Window height `H` (line 16). -/
def Hwin : ℚ := 700

/-- Top HUD band height `TOP_H` (line 17). -/
def TOP_H : ℚ := 90

/-- Bottom HUD band height `BOT_H` (line 18). -/
def BOT_H : ℚ := 120

/-- Arena lower bound `GAME_Y0 = BOT_H` (line 20). -/
def GAME_Y0 : ℚ := BOT_H

/-- Arena upper bound `GAME_Y1 = H - TOP_H` (line 21). -/
def GAME_Y1 : ℚ := Hwin - TOP_H

/-- `MAX_LIVES` (line 24). -/
def MAX_LIVES : ℤ := 5

/-- `PLAYER_SPEED` (line 25). -/
def PLAYER_SPEED : ℚ := 240

/-- `SPEED_BOOST` (line 26). -/
def SPEED_BOOST : ℚ := 420

/-- `POWERUP_DURATION` (line 27). -/
def POWERUP_DURATION : ℚ := 4

/-- `SHIELD_DURATION` (line 28). -/
def SHIELD_DURATION : ℚ := 4

/-- `ROUND_TIME_SEC` (line 29). -/
def ROUND_TIME_SEC : ℤ := 60

/-- `PLACE_MIN_DIST` (line 31). -/
def PLACE_MIN_DIST : ℚ := 26

/-- `clampf` (line 34): saturating clamp. -/
def clampf (v lo hi : ℚ) : ℚ := if v < lo then lo else if hi < v then hi else v

/-- `dist2` (line 35): squared euclidean distance. -/
def dist2 (x1 y1 x2 y2 : ℚ) : ℚ := (x1 - x2) * (x1 - x2) + (y1 - y2) * (y1 - y2)

/-- `inGameArea` (line 36). -/
def inGameArea (x y : ℚ) : Bool :=
  decide (0 ≤ x) && decide (x ≤ W) && decide (GAME_Y0 ≤ y) && decide (y ≤ GAME_Y1)

/-- The C cast `(int)x` from a float: truncation toward zero. -/
def truncQ (q : ℚ) : ℤ := if 0 ≤ q then ⌊q⌋ else ⌈q⌉

/-- `ObjType` (line 45). -/
inductive ObjType where
  | OBJ_OBSTACLE
  | OBJ_COLLECT
  | OBJ_PU_SPEED
  | OBJ_PU_SHIELD
deriving DecidableEq, Repr

/-- `Obj` (lines 47-50): a placed object. -/
structure Obj where
  x : ℚ
  y : ℚ
  r : ℚ
  type : ObjType
deriving DecidableEq, Repr

/-- `Player` (lines 57-66), minus the rendering-only `angleDeg`. -/
structure Player where
  x : ℚ
  y : ℚ
  r : ℚ
  lives : ℤ
  score : ℤ
  shielded : Bool
  shieldUntil : ℚ
  speedUntil : ℚ
deriving DecidableEq, Repr

/-- `Target` (lines 68-75): Bézier control points, progress `t`, direction. -/
structure Target where
  r : ℚ
  p0 : ℤ × ℤ
  p1 : ℤ × ℤ
  p2 : ℤ × ℤ
  p3 : ℤ × ℤ
  t : ℚ
  dir : ℤ
deriving DecidableEq, Repr

/-- `Phase` (line 92). -/
inductive Phase where
  | PHASE_EDIT
  | PHASE_PLAY
  | PHASE_WIN
  | PHASE_LOSE
deriving DecidableEq, Repr

/-- `PlaceMode` (line 95). -/
inductive PlaceMode where
  | PLACE_NONE
  | PLACE_OBS
  | PLACE_COL
  | PLACE_PU_SPEED
  | PLACE_PU_SHIELD
deriving DecidableEq, Repr

/-- The global mutable state of the program (lines 52-54, 66, 75, 90-104). -/
structure GameState where
  obstacles : List Obj
  collectibles : List Obj
  powerups : List Obj
  player : Player
  target : Target
  nextHitTime : ℚ
  phase : Phase
  placeMode : PlaceMode
  timeSec : ℚ
  roundStart : ℚ
  timeLeft : ℤ
  keyW : Bool
  keyA : Bool
  keyS : Bool
  keyD : Bool
  keyUp : Bool
  keyLeft : Bool
  keyDown : Bool
  keyRight : Bool
deriving DecidableEq, Repr

/-- `bezierPoint` (lines 78-87): cubic Bézier, evaluated per axis on the
integer control points, with a C truncating cast back to `int`. -/
def bezierPoint (t : ℚ) (p0 p1 p2 p3 : ℤ × ℤ) : ℤ × ℤ :=
  let u : ℚ := 1 - t
  let uu := u * u
  let tt := t * t
  let uuu := uu * u
  let ttt := tt * t
  let x := uuu * (p0.1 : ℚ) + 3 * u * u * t * (p1.1 : ℚ) + 3 * u * tt * (p2.1 : ℚ) + ttt * (p3.1 : ℚ)
  let y := uuu * (p0.2 : ℚ) + 3 * u * u * t * (p1.2 : ℚ) + 3 * u * tt * (p2.2 : ℚ) + ttt * (p3.2 : ℚ)
  (truncQ x, truncQ y)

/-- `overlapsAny` (lines 308-318): minimum-distance test against all placed
objects, the player, and the current derived position of the target. -/
def overlapsAny (s : GameState) (x y r : ℚ) : Bool :=
  let r2 := (r + PLACE_MIN_DIST) * (r + PLACE_MIN_DIST)
  s.obstacles.any (fun o => decide (dist2 x y o.x o.y < r2)) ||
  s.collectibles.any (fun c => decide (dist2 x y c.x c.y < r2)) ||
  s.powerups.any (fun p => decide (dist2 x y p.x p.y < r2)) ||
  decide (dist2 x y s.player.x s.player.y < r2) ||
  (let curT := bezierPoint s.target.t s.target.p0 s.target.p1 s.target.p2 s.target.p3
   decide (dist2 x y (curT.1 : ℚ) (curT.2 : ℚ) < r2))

/-- `currentSpeed` (lines 392-396). -/
def currentSpeed (s : GameState) : ℚ :=
  if s.timeSec < s.player.speedUntil then SPEED_BOOST else PLAYER_SPEED

/-- `intersectCircleCircle` (lines 398-401). -/
def intersectCircleCircle (x1 y1 r1 x2 y2 r2 : ℚ) : Bool :=
  decide (dist2 x1 y1 x2 y2 ≤ (r1 + r2) * (r1 + r2))

/-- Input-to-velocity resolution (updateGame lines 450-455). -/
def velocity (s : GameState) : ℚ × ℚ :=
  let spd := currentSpeed s
  let vy : ℚ := (if s.keyW || s.keyUp then spd else 0) + (if s.keyS || s.keyDown then -spd else 0)
  let vx : ℚ := (if s.keyA || s.keyLeft then -spd else 0) + (if s.keyD || s.keyRight then spd else 0)
  (vx, vy)

/-- Candidate x after clamping to the arena (tryMove lines 405-407). -/
def candX (s : GameState) (dx : ℚ) : ℚ :=
  clampf (s.player.x + dx) s.player.r (W - s.player.r)

/-- Candidate y after clamping to the arena (tryMove line 408). -/
def candY (s : GameState) (dy : ℚ) : ℚ :=
  clampf (s.player.y + dy) (GAME_Y0 + s.player.r) (GAME_Y1 - s.player.r)

/-- Nearest-point-on-square test against one obstacle (tryMove lines 414-417). -/
def blockedBy (o : Obj) (pr nx ny : ℚ) : Bool :=
  let cx := clampf nx (o.x - o.r) (o.x + o.r)
  let cy := clampf ny (o.y - o.r) (o.y + o.r)
  decide (dist2 nx ny cx cy < pr * pr)

/-- Obstacle scan of `tryMove` (lines 411-421); `List.any` matches the
early-`break` loop. -/
def blocked (s : GameState) (dx dy : ℚ) : Bool :=
  s.obstacles.any (fun o => blockedBy o s.player.r (candX s dx) (candY s dy))

/-- `tryMove` (lines 403-434). `dt` is passed but unused, as in the source. -/
def tryMove (s : GameState) (dx dy dt : ℚ) : GameState :=
  if blocked s dx dy then
    if s.player.shielded = false ∧ s.nextHitTime ≤ s.timeSec then
      if max 0 (s.player.lives - 1) = 0 then
        { s with player := { s.player with lives := max 0 (s.player.lives - 1) },
                 nextHitTime := s.timeSec + 1/2,
                 phase := Phase.PHASE_LOSE }
      else
        { s with player := { s.player with lives := max 0 (s.player.lives - 1) },
                 nextHitTime := s.timeSec + 1/2 }
    else s
  else { s with player := { s.player with x := candX s dx, y := candY s dy } }

/-- Clamped countdown value (updateGame lines 441-443):
`remain = ROUND_TIME_SEC - (int)(timeSec - roundStart)`, floored at 0. -/
def clampRemain (s : GameState) : ℤ :=
  if 0 < ROUND_TIME_SEC - truncQ (s.timeSec - s.roundStart) then
    ROUND_TIME_SEC - truncQ (s.timeSec - s.roundStart)
  else 0

/-- Shield expiry (updateGame line 447). -/
def expireShield (s : GameState) : GameState :=
  if s.player.shieldUntil < s.timeSec then
    { s with player := { s.player with shielded := false } }
  else s

/-- Movement portion of a play tick (updateGame lines 447-463):
shield expiry, velocity resolution, then `tryMove`. -/
def moveStage (s : GameState) (dt : ℚ) : GameState :=
  tryMove (expireShield s) ((velocity (expireShield s)).1 * dt)
    ((velocity (expireShield s)).2 * dt) dt

/-- Collectible-consumption loop (updateGame lines 466-472). The C++ loop
erases the element at index `i` on a hit (leaving `i` in place) and
increments `i` otherwise: each element is visited exactly once, in order,
which this structural recursion reproduces. Returns the score gained and the
surviving collectibles. -/
def collectLoop (px py pr : ℚ) : List Obj → ℤ × List Obj
  | [] => (0, [])
  | c :: rest =>
    if intersectCircleCircle px py pr c.x c.y c.r then
      let res := collectLoop px py pr rest
      (res.1 + 5, res.2)
    else
      let res := collectLoop px py pr rest
      (res.1, c :: res.2)

/-- State-level wrapper for the collectible loop. -/
def collectPass (s : GameState) : GameState :=
  let res := collectLoop s.player.x s.player.y s.player.r s.collectibles
  { s with player := { s.player with score := s.player.score + res.1 },
           collectibles := res.2 }

/-- Power-up consumption loop (updateGame lines 475-487); same erase-in-place
iteration shape as the collectible loop. The player record is threaded
through because pickups update its timer fields. -/
def powerLoop (now : ℚ) (pl : Player) : List Obj → Player × List Obj
  | [] => (pl, [])
  | o :: rest =>
    if intersectCircleCircle pl.x pl.y pl.r o.x o.y o.r then
      let pl1 :=
        if o.type = ObjType.OBJ_PU_SPEED then
          { pl with speedUntil := now + POWERUP_DURATION }
        else
          { pl with shielded := true, shieldUntil := now + SHIELD_DURATION }
      powerLoop now pl1 rest
    else
      let res := powerLoop now pl rest
      (res.1, o :: res.2)

/-- State-level wrapper for the power-up loop. -/
def powerupPass (s : GameState) : GameState :=
  let res := powerLoop s.timeSec s.player s.powerups
  { s with player := res.1, powerups := res.2 }

/-- Win check against the derived position of the target (updateGame lines 489-494). -/
def targetCheck (s : GameState) : GameState :=
  if intersectCircleCircle s.player.x s.player.y s.player.r
      ((bezierPoint s.target.t s.target.p0 s.target.p1 s.target.p2 s.target.p3).1 : ℚ)
      ((bezierPoint s.target.t s.target.p0 s.target.p1 s.target.p2 s.target.p3).2 : ℚ)
      s.target.r then
    { s with phase := Phase.PHASE_WIN }
  else s

/-- `updateGame` (lines 437-494): the per-tick simulation step. The source
stores `timeLeft` first and returns early with `phase = LOSE` when it is 0;
otherwise it runs movement, pickups, and the win check in order. -/
def updateGame (s : GameState) (dt : ℚ) : GameState :=
  if s.phase ≠ Phase.PHASE_PLAY then s
  else if clampRemain s ≤ 0 then
    { s with timeLeft := clampRemain s, phase := Phase.PHASE_LOSE }
  else
    targetCheck (powerupPass (collectPass (moveStage { s with timeLeft := clampRemain s } dt)))

/-- `updateTarget` (lines 496-502): ping-pong of `t` over `[0,1]`. The float
constant `0.35f` is embedded as the rational `7/20`. -/
def updateTarget (tg : Target) (dt : ℚ) : Target :=
  if 1 < tg.t + (tg.dir : ℚ) * (7/20) * dt then { tg with t := 1, dir := -1 }
  else if tg.t + (tg.dir : ℚ) * (7/20) * dt < 0 then { tg with t := 0, dir := 1 }
  else { tg with t := tg.t + (tg.dir : ℚ) * (7/20) * dt }

/-- Iterated target updates: one `updateTarget` per tick delta in the list. -/
def updateTargetMany (tg : Target) (dts : List ℚ) : Target :=
  dts.foldl updateTarget tg

/-- `startRound` (lines 553-573). `yTop = H - TOP_H - 60 = 550`. -/
def startRound (s : GameState) : GameState :=
  { s with
    player := { s.player with
      x := W * (1/2), y := GAME_Y0 + 40,
      lives := MAX_LIVES, shielded := false, score := 0,
      speedUntil := 0, shieldUntil := 0 }
    target := { s.target with
      p0 := (100, 550), p1 := (300, 630), p2 := (700, 470), p3 := (900, 550),
      t := 0, dir := 1 }
    roundStart := s.timeSec
    timeLeft := ROUND_TIME_SEC
    phase := Phase.PHASE_PLAY }

/-- Radius assigned to a freshly placed object by the `Mouse` branches
(lines 624-639): 18 for an obstacle, 14 otherwise (16 is the overwritten
default from line 624, kept for `PLACE_NONE` where no object is built). -/
def modeRadius : PlaceMode → ℚ
  | PlaceMode.PLACE_OBS => 18
  | PlaceMode.PLACE_COL => 14
  | PlaceMode.PLACE_PU_SPEED => 14
  | PlaceMode.PLACE_PU_SHIELD => 14
  | PlaceMode.PLACE_NONE => 16

/-- Palette selection in the bottom band (Mouse lines 612-619):
`BOT_H * 0.5 = 60`, hit radius 35 around each icon center. -/
def paletteSelect (x y : ℚ) : PlaceMode :=
  if dist2 x y 80 (BOT_H * (1/2)) < 35 * 35 then PlaceMode.PLACE_OBS
  else if dist2 x y 240 (BOT_H * (1/2)) < 35 * 35 then PlaceMode.PLACE_COL
  else if dist2 x y 400 (BOT_H * (1/2)) < 35 * 35 then PlaceMode.PLACE_PU_SPEED
  else if dist2 x y 560 (BOT_H * (1/2)) < 35 * 35 then PlaceMode.PLACE_PU_SHIELD
  else PlaceMode.PLACE_NONE

/-- Placement branches of `Mouse` (lines 624-640): per-kind radius, the
`overlapsAny` rejection test, and append to the collection of that kind. -/
def placeAt (s : GameState) (x y : ℚ) : GameState :=
  if s.placeMode = PlaceMode.PLACE_OBS then
    if overlapsAny s x y 18 then s
    else { s with obstacles := s.obstacles ++ [⟨x, y, 18, ObjType.OBJ_OBSTACLE⟩] }
  else if s.placeMode = PlaceMode.PLACE_COL then
    if overlapsAny s x y 14 then s
    else { s with collectibles := s.collectibles ++ [⟨x, y, 14, ObjType.OBJ_COLLECT⟩] }
  else if s.placeMode = PlaceMode.PLACE_PU_SPEED then
    if overlapsAny s x y 14 then s
    else { s with powerups := s.powerups ++ [⟨x, y, 14, ObjType.OBJ_PU_SPEED⟩] }
  else if s.placeMode = PlaceMode.PLACE_PU_SHIELD then
    if overlapsAny s x y 14 then s
    else { s with powerups := s.powerups ++ [⟨x, y, 14, ObjType.OBJ_PU_SHIELD⟩] }
  else s

/-- `Mouse` (lines 605-643) for a left-button press at window coordinates
`(x0, y0)`; the handler flips `y` to OpenGL coordinates (`y = H - y`) first.
Placement only happens while `phase = PHASE_EDIT` and the click is inside
the arena. -/
def mouseDown (s : GameState) (x0 y0 : ℤ) : GameState :=
  if Hwin - (y0 : ℚ) ≤ BOT_H then
    { s with placeMode := paletteSelect (x0 : ℚ) (Hwin - (y0 : ℚ)) }
  else if s.phase = Phase.PHASE_EDIT ∧ inGameArea (x0 : ℚ) (Hwin - (y0 : ℚ)) then
    placeAt s (x0 : ℚ) (Hwin - (y0 : ℚ))
  else s

/-- A concrete game state used as the base of the witness instantiations. -/
def baseState : GameState where
  obstacles := []
  collectibles := []
  powerups := []
  player := { x := 500, y := 160, r := 14, lives := 5, score := 0,
              shielded := false, shieldUntil := 0, speedUntil := 0 }
  target := { r := 16, p0 := (100, 550), p1 := (300, 630), p2 := (700, 470),
              p3 := (900, 550), t := 0, dir := 1 }
  nextHitTime := 0
  phase := Phase.PHASE_PLAY
  placeMode := PlaceMode.PLACE_NONE
  timeSec := 0
  roundStart := 0
  timeLeft := 60
  keyW := false
  keyA := false
  keyS := false
  keyD := false
  keyUp := false
  keyLeft := false
  keyDown := false
  keyRight := false

/-- Concrete target used to witness C4. -/
def wTarget4 : Target :=
  ⟨16, (100, 550), (300, 630), (700, 470), (900, 550), 0, 1⟩

/-- Concrete state for the C1 witness: an obstacle sits on the player. -/
def wstate1 : GameState :=
  { baseState with obstacles := [⟨500, 160, 18, ObjType.OBJ_OBSTACLE⟩] }

/-- Concrete state for the C2 witness: 60 seconds elapsed, countdown hits 0. -/
def wstate2 : GameState := { baseState with timeSec := 61, roundStart := 1 }

/-- Concrete state for the C3 witness: one collectible in reach, one far. -/
def wstate3 : GameState :=
  { baseState with collectibles :=
      [⟨505, 160, 14, ObjType.OBJ_COLLECT⟩, ⟨800, 500, 14, ObjType.OBJ_COLLECT⟩] }

/-- Concrete state for the C5 witness: edit phase, obstacle kind selected,
empty collections. -/
def wstate5 : GameState :=
  { baseState with phase := Phase.PHASE_EDIT, placeMode := PlaceMode.PLACE_OBS }

/-- Concrete state for the C7 witness: a finished (Win) round with some
objects still placed. -/
def wstate7 : GameState :=
  { baseState with phase := Phase.PHASE_WIN,
                   obstacles := [⟨300, 300, 18, ObjType.OBJ_OBSTACLE⟩] }

/-- Concrete state for the C8 witness: play phase, obstacle kind selected. -/
def wstate8 : GameState := { baseState with placeMode := PlaceMode.PLACE_OBS }

/-- Concrete state for the C9 witness: a hit happened just before restart. -/
def wstate9 : GameState := { baseState with nextHitTime := 10 }

/-- Concrete state for the C10 witness: one life left, obstacle on the
player, and the derived position of the target on the player as well. -/
def wstate10 : GameState :=
  { baseState with
      obstacles := [⟨500, 160, 18, ObjType.OBJ_OBSTACLE⟩],
      player := { baseState.player with lives := 1 },
      target := { baseState.target with p0 := (500, 160) } }

/-! ## Helper lemmas -/

lemma truncQ_intCast (n : ℤ) : truncQ (n : ℚ) = n := by
  unfold truncQ
  split
  · exact Int.floor_intCast n
  · exact Int.ceil_intCast n

lemma bezierPoint_zero (p0 p1 p2 p3 : ℤ × ℤ) : bezierPoint 0 p0 p1 p2 p3 = p0 := by
  unfold bezierPoint
  norm_num [truncQ_intCast]

lemma bezierPoint_one (p0 p1 p2 p3 : ℤ × ℤ) : bezierPoint 1 p0 p1 p2 p3 = p3 := by
  unfold bezierPoint
  norm_num [truncQ_intCast]

lemma updateTarget_inv (u : Target) (d : ℚ) (h0 : 0 ≤ u.t) (h1 : u.t ≤ 1)
    (hd : u.dir = 1 ∨ u.dir = -1) :
    (0 ≤ (updateTarget u d).t ∧ (updateTarget u d).t ≤ 1) ∧
    ((updateTarget u d).dir = 1 ∨ (updateTarget u d).dir = -1) := by
  unfold updateTarget
  split
  · simp
  · split
    · simp
    · rename_i hA hB
      refine ⟨⟨by linarith [not_lt.1 hB], by linarith [not_lt.1 hA]⟩, ?_⟩
      simpa using hd

lemma updateTargetMany_inv (tg : Target) (dts : List ℚ)
    (h0 : 0 ≤ tg.t) (h1 : tg.t ≤ 1) (hd : tg.dir = 1 ∨ tg.dir = -1) :
    (0 ≤ (updateTargetMany tg dts).t ∧ (updateTargetMany tg dts).t ≤ 1) ∧
    ((updateTargetMany tg dts).dir = 1 ∨ (updateTargetMany tg dts).dir = -1) := by
  induction dts generalizing tg with
  | nil => exact ⟨⟨h0, h1⟩, hd⟩
  | cons d ds ih =>
    have hstep := updateTarget_inv tg d h0 h1 hd
    exact ih (updateTarget tg d) hstep.1.1 hstep.1.2 hstep.2


lemma updateTarget_flip (u : Target) (d : ℚ) (h0 : 0 ≤ u.t) (h1 : u.t ≤ 1)
    (hd : u.dir = 1 ∨ u.dir = -1) (hdpos : 0 < d) :
    ((updateTarget u d).dir ≠ u.dir ↔
      (1 < u.t + (u.dir : ℚ) * (7/20) * d ∨ u.t + (u.dir : ℚ) * (7/20) * d < 0)) ∧
    (1 < u.t + (u.dir : ℚ) * (7/20) * d →
      (updateTarget u d).t = 1 ∧ (updateTarget u d).dir = -1) ∧
    (u.t + (u.dir : ℚ) * (7/20) * d < 0 →
      (updateTarget u d).t = 0 ∧ (updateTarget u d).dir = 1) := by
  unfold updateTarget
  split
  · rename_i hA
    have hdir : u.dir = 1 := by
      rcases hd with h | h
      · exact h
      · exfalso
        rw [h] at hA
        push_cast at hA
        linarith
    refine ⟨iff_of_true (by show (-1 : ℤ) ≠ u.dir; rw [hdir]; decide) (Or.inl hA),
      fun _ => ⟨rfl, rfl⟩, ?_⟩
    intro hB
    exfalso
    linarith
  · split
    · rename_i hA hB
      have hdir : u.dir = -1 := by
        rcases hd with h | h
        · exfalso
          rw [h] at hB
          push_cast at hB
          linarith
        · exact h
      exact ⟨iff_of_true (by show (1 : ℤ) ≠ u.dir; rw [hdir]; decide) (Or.inr hB),
             fun h => absurd h hA, fun _ => ⟨rfl, rfl⟩⟩
    · rename_i hA hB
      exact ⟨iff_of_false (by simp) (by rw [not_or]; exact ⟨hA, hB⟩),
             fun h => absurd h hA, fun h => absurd h hB⟩


/-! ## Claim theorems -/

/-- C6: For every set of four control points, the Bézier evaluator returns
exactly p0 when evaluated at t = 0 and exactly p3 when evaluated at t = 1. -/
theorem C6_bezier_endpoints (p0 p1 p2 p3 : ℤ × ℤ) :
    bezierPoint 0 p0 p1 p2 p3 = p0 ∧ bezierPoint 1 p0 p1 p2 p3 = p3 :=
  ⟨bezierPoint_zero p0 p1 p2 p3, bezierPoint_one p0 p1 p2 p3⟩

/-- C4: For every sequence of target-updater ticks with any dt > 0, starting
from t ∈ [0,1] and direction ∈ {+1,−1}, the parameter t stays within [0,1]
after every update (and the direction stays in {+1,−1}); moreover, in a single
step the direction flips exactly when the raw update `t + dir·0.35·dt` leaves
[0,1]: it flips to −1 (with t clamped to 1) exactly on hitting the upper
bound, and to +1 (with t clamped to 0) exactly on hitting the lower bound. -/
theorem C4_pingpong (tg : Target) (dts : List ℚ)
    (h0 : 0 ≤ tg.t) (h1 : tg.t ≤ 1) (hd : tg.dir = 1 ∨ tg.dir = -1)
    (hdts : ∀ d ∈ dts, 0 < d) :
    ((0 ≤ (updateTargetMany tg dts).t ∧ (updateTargetMany tg dts).t ≤ 1) ∧
      ((updateTargetMany tg dts).dir = 1 ∨ (updateTargetMany tg dts).dir = -1)) ∧
    (∀ u : Target, ∀ d : ℚ, 0 ≤ u.t → u.t ≤ 1 → (u.dir = 1 ∨ u.dir = -1) → 0 < d →
      ((updateTarget u d).dir ≠ u.dir ↔
        (1 < u.t + (u.dir : ℚ) * (7/20) * d ∨ u.t + (u.dir : ℚ) * (7/20) * d < 0)) ∧
      (1 < u.t + (u.dir : ℚ) * (7/20) * d →
        (updateTarget u d).t = 1 ∧ (updateTarget u d).dir = -1) ∧
      (u.t + (u.dir : ℚ) * (7/20) * d < 0 →
        (updateTarget u d).t = 0 ∧ (updateTarget u d).dir = 1)) := by
  refine ⟨updateTargetMany_inv tg dts h0 h1 hd, ?_⟩
  intro u d hu0 hu1 hud hdpos
  exact updateTarget_flip u d hu0 hu1 hud hdpos

/-- Witness for C4 at a concrete target and tick sequence. -/
theorem C4_pingpong_witness :
    (0 ≤ wTarget4.t ∧ wTarget4.t ≤ 1 ∧ (wTarget4.dir = 1 ∨ wTarget4.dir = -1) ∧
      (∀ d ∈ ([1, 1, 1] : List ℚ), 0 < d)) ∧
    (0 ≤ (updateTargetMany wTarget4 [1, 1, 1]).t ∧
      (updateTargetMany wTarget4 [1, 1, 1]).t ≤ 1) := by
  have h := C4_pingpong wTarget4 [1, 1, 1] (by norm_num [wTarget4])
    (by norm_num [wTarget4]) (Or.inl rfl) (by norm_num)
  exact ⟨⟨by norm_num [wTarget4], by norm_num [wTarget4], Or.inl rfl, by norm_num⟩,
         h.1.1⟩


/-! ## Field-preservation lemmas for the tick pipeline -/

@[simp] lemma expireShield_obstacles (s : GameState) :
    (expireShield s).obstacles = s.obstacles := by
  unfold expireShield
  split <;> rfl

@[simp] lemma expireShield_collectibles (s : GameState) :
    (expireShield s).collectibles = s.collectibles := by
  unfold expireShield
  split <;> rfl

@[simp] lemma expireShield_powerups (s : GameState) :
    (expireShield s).powerups = s.powerups := by
  unfold expireShield
  split <;> rfl

@[simp] lemma expireShield_target (s : GameState) :
    (expireShield s).target = s.target := by
  unfold expireShield
  split <;> rfl

@[simp] lemma expireShield_nextHitTime (s : GameState) :
    (expireShield s).nextHitTime = s.nextHitTime := by
  unfold expireShield
  split <;> rfl

@[simp] lemma expireShield_phase (s : GameState) :
    (expireShield s).phase = s.phase := by
  unfold expireShield
  split <;> rfl

@[simp] lemma expireShield_timeSec (s : GameState) :
    (expireShield s).timeSec = s.timeSec := by
  unfold expireShield
  split <;> rfl

@[simp] lemma expireShield_roundStart (s : GameState) :
    (expireShield s).roundStart = s.roundStart := by
  unfold expireShield
  split <;> rfl

@[simp] lemma expireShield_timeLeft (s : GameState) :
    (expireShield s).timeLeft = s.timeLeft := by
  unfold expireShield
  split <;> rfl

@[simp] lemma expireShield_player_x (s : GameState) :
    (expireShield s).player.x = s.player.x := by
  unfold expireShield
  split <;> rfl

@[simp] lemma expireShield_player_y (s : GameState) :
    (expireShield s).player.y = s.player.y := by
  unfold expireShield
  split <;> rfl

@[simp] lemma expireShield_player_r (s : GameState) :
    (expireShield s).player.r = s.player.r := by
  unfold expireShield
  split <;> rfl

@[simp] lemma expireShield_player_lives (s : GameState) :
    (expireShield s).player.lives = s.player.lives := by
  unfold expireShield
  split <;> rfl

@[simp] lemma expireShield_player_score (s : GameState) :
    (expireShield s).player.score = s.player.score := by
  unfold expireShield
  split <;> rfl

@[simp] lemma expireShield_player_shieldUntil (s : GameState) :
    (expireShield s).player.shieldUntil = s.player.shieldUntil := by
  unfold expireShield
  split <;> rfl

@[simp] lemma expireShield_player_speedUntil (s : GameState) :
    (expireShield s).player.speedUntil = s.player.speedUntil := by
  unfold expireShield
  split <;> rfl

lemma expireShield_shielded_false (s : GameState)
    (h : s.player.shielded = false ∨ s.player.shieldUntil < s.timeSec) :
    (expireShield s).player.shielded = false := by
  unfold expireShield
  split
  · rfl
  · rename_i hc
    rcases h with h | h
    · exact h
    · exact absurd h hc

lemma velocity_expireShield (s : GameState) :
    velocity (expireShield s) = velocity s := by
  unfold expireShield
  split <;> rfl

lemma blocked_expireShield (s : GameState) (dx dy : ℚ) :
    blocked (expireShield s) dx dy = blocked s dx dy := by
  unfold expireShield
  split <;> rfl

lemma velocity_setTimeLeft (s : GameState) (tl : ℤ) :
    velocity { s with timeLeft := tl } = velocity s := rfl

lemma blocked_setTimeLeft (s : GameState) (tl : ℤ) (dx dy : ℚ) :
    blocked { s with timeLeft := tl } dx dy = blocked s dx dy := rfl


@[simp] lemma tryMove_timeLeft (s : GameState) (dx dy dt : ℚ) :
    (tryMove s dx dy dt).timeLeft = s.timeLeft := by
  unfold tryMove
  split
  · split
    · split <;> rfl
    · rfl
  · rfl

@[simp] lemma tryMove_timeSec (s : GameState) (dx dy dt : ℚ) :
    (tryMove s dx dy dt).timeSec = s.timeSec := by
  unfold tryMove
  split
  · split
    · split <;> rfl
    · rfl
  · rfl

@[simp] lemma tryMove_roundStart (s : GameState) (dx dy dt : ℚ) :
    (tryMove s dx dy dt).roundStart = s.roundStart := by
  unfold tryMove
  split
  · split
    · split <;> rfl
    · rfl
  · rfl

@[simp] lemma tryMove_obstacles (s : GameState) (dx dy dt : ℚ) :
    (tryMove s dx dy dt).obstacles = s.obstacles := by
  unfold tryMove
  split
  · split
    · split <;> rfl
    · rfl
  · rfl

@[simp] lemma tryMove_collectibles (s : GameState) (dx dy dt : ℚ) :
    (tryMove s dx dy dt).collectibles = s.collectibles := by
  unfold tryMove
  split
  · split
    · split <;> rfl
    · rfl
  · rfl

@[simp] lemma tryMove_powerups (s : GameState) (dx dy dt : ℚ) :
    (tryMove s dx dy dt).powerups = s.powerups := by
  unfold tryMove
  split
  · split
    · split <;> rfl
    · rfl
  · rfl

@[simp] lemma tryMove_target (s : GameState) (dx dy dt : ℚ) :
    (tryMove s dx dy dt).target = s.target := by
  unfold tryMove
  split
  · split
    · split <;> rfl
    · rfl
  · rfl

@[simp] lemma tryMove_player_score (s : GameState) (dx dy dt : ℚ) :
    (tryMove s dx dy dt).player.score = s.player.score := by
  unfold tryMove
  split
  · split
    · split <;> rfl
    · rfl
  · rfl

@[simp] lemma tryMove_player_r (s : GameState) (dx dy dt : ℚ) :
    (tryMove s dx dy dt).player.r = s.player.r := by
  unfold tryMove
  split
  · split
    · split <;> rfl
    · rfl
  · rfl

@[simp] lemma tryMove_player_shielded (s : GameState) (dx dy dt : ℚ) :
    (tryMove s dx dy dt).player.shielded = s.player.shielded := by
  unfold tryMove
  split
  · split
    · split <;> rfl
    · rfl
  · rfl

@[simp] lemma tryMove_player_shieldUntil (s : GameState) (dx dy dt : ℚ) :
    (tryMove s dx dy dt).player.shieldUntil = s.player.shieldUntil := by
  unfold tryMove
  split
  · split
    · split <;> rfl
    · rfl
  · rfl

@[simp] lemma tryMove_player_speedUntil (s : GameState) (dx dy dt : ℚ) :
    (tryMove s dx dy dt).player.speedUntil = s.player.speedUntil := by
  unfold tryMove
  split
  · split
    · split <;> rfl
    · rfl
  · rfl

lemma tryMove_cool_lives (s : GameState) (dx dy dt : ℚ)
    (h : s.timeSec < s.nextHitTime) :
    (tryMove s dx dy dt).player.lives = s.player.lives := by
  have hno : ¬(s.player.shielded = false ∧ s.nextHitTime ≤ s.timeSec) := by
    rintro ⟨-, hle⟩
    exact absurd h (not_lt.2 hle)
  unfold tryMove
  split
  · rfl
  · rfl

lemma tryMove_noHit_eq (s : GameState) (dx dy dt : ℚ)
    (h : ¬(s.player.shielded = false ∧ s.nextHitTime ≤ s.timeSec)) :
    tryMove s dx dy dt = s ∨
    tryMove s dx dy dt =
      { s with player := { s.player with x := candX s dx, y := candY s dy } } := by
  unfold tryMove
  split
  · left
    rfl
  · right
    rfl

lemma tryMove_blocked_pos (s : GameState) (dx dy dt : ℚ)
    (hb : blocked s dx dy = true) :
    (tryMove s dx dy dt).player.x = s.player.x ∧
    (tryMove s dx dy dt).player.y = s.player.y := by
  unfold tryMove
  rw [if_pos hb]
  split
  · split <;> exact ⟨rfl, rfl⟩
  · exact ⟨rfl, rfl⟩

lemma tryMove_hit_eq (s : GameState) (dx dy dt : ℚ)
    (hb : blocked s dx dy = true) (hsh : s.player.shielded = false)
    (hcd : s.nextHitTime ≤ s.timeSec) (hl : 1 ≤ s.player.lives) :
    tryMove s dx dy dt =
      { s with player := { s.player with lives := s.player.lives - 1 },
               nextHitTime := s.timeSec + 1/2,
               phase := if s.player.lives = 1 then Phase.PHASE_LOSE else s.phase } := by
  have hmax : max 0 (s.player.lives - 1) = s.player.lives - 1 := by omega
  unfold tryMove
  rw [if_pos hb, if_pos ⟨hsh, hcd⟩]
  by_cases h1 : s.player.lives = 1
  · rw [if_pos h1]
    simp only [hmax]
    rw [if_pos (by omega)]
  · rw [if_neg h1]
    simp only [hmax]
    rw [if_neg (by omega)]

lemma tryMove_free_eq (s : GameState) (dx dy dt : ℚ)
    (hb : blocked s dx dy = false) :
    tryMove s dx dy dt =
      { s with player := { s.player with x := candX s dx, y := candY s dy } } := by
  unfold tryMove
  rw [if_neg (by rw [hb]; exact Bool.false_ne_true)]


lemma collectLoop_eq (px py pr : ℚ) (l : List Obj) :
    collectLoop px py pr l =
      (5 * (l.countP (fun c => intersectCircleCircle px py pr c.x c.y c.r) : ℤ),
       l.filter (fun c => !intersectCircleCircle px py pr c.x c.y c.r)) := by
  induction l with
  | nil => rfl
  | cons c rest ih =>
    unfold collectLoop
    rw [ih]
    by_cases h : intersectCircleCircle px py pr c.x c.y c.r = true
    · simp [h, List.countP_cons, List.filter_cons]
      ring
    · simp [h, List.countP_cons, List.filter_cons, Bool.eq_false_iff.2 h]

@[simp] lemma collectPass_phase (s : GameState) : (collectPass s).phase = s.phase := rfl

@[simp] lemma collectPass_timeLeft (s : GameState) : (collectPass s).timeLeft = s.timeLeft := rfl

@[simp] lemma collectPass_timeSec (s : GameState) : (collectPass s).timeSec = s.timeSec := rfl

@[simp] lemma collectPass_roundStart (s : GameState) :
    (collectPass s).roundStart = s.roundStart := rfl

@[simp] lemma collectPass_nextHitTime (s : GameState) :
    (collectPass s).nextHitTime = s.nextHitTime := rfl

@[simp] lemma collectPass_obstacles (s : GameState) :
    (collectPass s).obstacles = s.obstacles := rfl

@[simp] lemma collectPass_powerups (s : GameState) :
    (collectPass s).powerups = s.powerups := rfl

@[simp] lemma collectPass_targetF (s : GameState) : (collectPass s).target = s.target := rfl

@[simp] lemma collectPass_player_x (s : GameState) : (collectPass s).player.x = s.player.x := rfl

@[simp] lemma collectPass_player_y (s : GameState) : (collectPass s).player.y = s.player.y := rfl

@[simp] lemma collectPass_player_r (s : GameState) : (collectPass s).player.r = s.player.r := rfl

@[simp] lemma collectPass_player_lives (s : GameState) :
    (collectPass s).player.lives = s.player.lives := rfl

@[simp] lemma collectPass_player_shielded (s : GameState) :
    (collectPass s).player.shielded = s.player.shielded := rfl

@[simp] lemma collectPass_player_shieldUntil (s : GameState) :
    (collectPass s).player.shieldUntil = s.player.shieldUntil := rfl

@[simp] lemma collectPass_player_speedUntil (s : GameState) :
    (collectPass s).player.speedUntil = s.player.speedUntil := rfl

lemma collectPass_score (s : GameState) :
    (collectPass s).player.score =
      s.player.score +
        (collectLoop s.player.x s.player.y s.player.r s.collectibles).1 := rfl

lemma collectPass_collectibles (s : GameState) :
    (collectPass s).collectibles =
      (collectLoop s.player.x s.player.y s.player.r s.collectibles).2 := rfl

lemma powerLoop_keeps (now : ℚ) (pl : Player) (l : List Obj) :
    (powerLoop now pl l).1.x = pl.x ∧ (powerLoop now pl l).1.y = pl.y ∧
    (powerLoop now pl l).1.r = pl.r ∧ (powerLoop now pl l).1.lives = pl.lives ∧
    (powerLoop now pl l).1.score = pl.score := by
  induction l generalizing pl with
  | nil => exact ⟨rfl, rfl, rfl, rfl, rfl⟩
  | cons o rest ih =>
    unfold powerLoop
    split
    · split
      · exact ih _
      · exact ih _
    · exact ih pl

@[simp] lemma powerupPass_phase (s : GameState) : (powerupPass s).phase = s.phase := rfl

@[simp] lemma powerupPass_timeLeft (s : GameState) :
    (powerupPass s).timeLeft = s.timeLeft := rfl

@[simp] lemma powerupPass_timeSec (s : GameState) :
    (powerupPass s).timeSec = s.timeSec := rfl

@[simp] lemma powerupPass_roundStart (s : GameState) :
    (powerupPass s).roundStart = s.roundStart := rfl

@[simp] lemma powerupPass_nextHitTime (s : GameState) :
    (powerupPass s).nextHitTime = s.nextHitTime := rfl

@[simp] lemma powerupPass_obstacles (s : GameState) :
    (powerupPass s).obstacles = s.obstacles := rfl

@[simp] lemma powerupPass_collectibles (s : GameState) :
    (powerupPass s).collectibles = s.collectibles := rfl

@[simp] lemma powerupPass_targetF (s : GameState) : (powerupPass s).target = s.target := rfl

@[simp] lemma powerupPass_player_x (s : GameState) :
    (powerupPass s).player.x = s.player.x :=
  (powerLoop_keeps s.timeSec s.player s.powerups).1

@[simp] lemma powerupPass_player_y (s : GameState) :
    (powerupPass s).player.y = s.player.y :=
  (powerLoop_keeps s.timeSec s.player s.powerups).2.1

@[simp] lemma powerupPass_player_r (s : GameState) :
    (powerupPass s).player.r = s.player.r :=
  (powerLoop_keeps s.timeSec s.player s.powerups).2.2.1

@[simp] lemma powerupPass_player_lives (s : GameState) :
    (powerupPass s).player.lives = s.player.lives :=
  (powerLoop_keeps s.timeSec s.player s.powerups).2.2.2.1

@[simp] lemma powerupPass_player_score (s : GameState) :
    (powerupPass s).player.score = s.player.score :=
  (powerLoop_keeps s.timeSec s.player s.powerups).2.2.2.2

@[simp] lemma targetCheck_player (s : GameState) : (targetCheck s).player = s.player := by
  unfold targetCheck
  split <;> rfl

@[simp] lemma targetCheck_obstacles (s : GameState) :
    (targetCheck s).obstacles = s.obstacles := by
  unfold targetCheck
  split <;> rfl

@[simp] lemma targetCheck_collectibles (s : GameState) :
    (targetCheck s).collectibles = s.collectibles := by
  unfold targetCheck
  split <;> rfl

@[simp] lemma targetCheck_powerups (s : GameState) :
    (targetCheck s).powerups = s.powerups := by
  unfold targetCheck
  split <;> rfl

@[simp] lemma targetCheck_timeLeft (s : GameState) :
    (targetCheck s).timeLeft = s.timeLeft := by
  unfold targetCheck
  split <;> rfl

@[simp] lemma targetCheck_timeSec (s : GameState) :
    (targetCheck s).timeSec = s.timeSec := by
  unfold targetCheck
  split <;> rfl

@[simp] lemma targetCheck_roundStart (s : GameState) :
    (targetCheck s).roundStart = s.roundStart := by
  unfold targetCheck
  split <;> rfl

@[simp] lemma targetCheck_nextHitTime (s : GameState) :
    (targetCheck s).nextHitTime = s.nextHitTime := by
  unfold targetCheck
  split <;> rfl

@[simp] lemma targetCheck_targetF (s : GameState) : (targetCheck s).target = s.target := by
  unfold targetCheck
  split <;> rfl

lemma targetCheck_phase_win (s : GameState)
    (h : intersectCircleCircle s.player.x s.player.y s.player.r
      ((bezierPoint s.target.t s.target.p0 s.target.p1 s.target.p2 s.target.p3).1 : ℚ)
      ((bezierPoint s.target.t s.target.p0 s.target.p1 s.target.p2 s.target.p3).2 : ℚ)
      s.target.r = true) :
    (targetCheck s).phase = Phase.PHASE_WIN := by
  unfold targetCheck
  rw [if_pos h]


lemma expireShield_setTimeLeft (s : GameState) (tl : ℤ) :
    expireShield { s with timeLeft := tl } = { expireShield s with timeLeft := tl } := by
  unfold expireShield
  by_cases h : s.player.shieldUntil < s.timeSec
  · rw [if_pos h, if_pos h]
  · rw [if_neg h, if_neg h]

lemma clampRemain_eq_max (s : GameState) :
    clampRemain s = max 0 (ROUND_TIME_SEC - truncQ (s.timeSec - s.roundStart)) := by
  unfold clampRemain
  split <;> omega

lemma truncQ_of_nonneg (q : ℚ) (h : 0 ≤ q) : truncQ q = ⌊q⌋ := by
  unfold truncQ
  rw [if_pos h]

lemma clampRemain_nonneg (s : GameState) : 0 ≤ clampRemain s := by
  unfold clampRemain
  split <;> omega

lemma updateGame_not_play (s : GameState) (dt : ℚ)
    (h : s.phase ≠ Phase.PHASE_PLAY) : updateGame s dt = s := by
  unfold updateGame
  rw [if_pos h]

lemma updateGame_timeout (s : GameState) (dt : ℚ)
    (hp : s.phase = Phase.PHASE_PLAY) (ht : clampRemain s ≤ 0) :
    updateGame s dt = { s with timeLeft := clampRemain s, phase := Phase.PHASE_LOSE } := by
  unfold updateGame
  rw [if_neg (by simp [hp]), if_pos ht]

lemma updateGame_play (s : GameState) (dt : ℚ)
    (hp : s.phase = Phase.PHASE_PLAY) (ht : 0 < clampRemain s) :
    updateGame s dt =
      targetCheck (powerupPass (collectPass
        (moveStage { s with timeLeft := clampRemain s } dt))) := by
  unfold updateGame
  rw [if_neg (by simp [hp]), if_neg (by omega)]


/-- C7: For every state in which Phase is Win or Lose, the round-start action
sets lives to MAX_LIVES, score to 0, Phase to Play, and the countdown to the
full round duration, while leaving the obstacle, collectible, and power-up
collections exactly unchanged. -/
theorem C7_round_reset (s : GameState)
    (h : s.phase = Phase.PHASE_WIN ∨ s.phase = Phase.PHASE_LOSE) :
    (startRound s).player.lives = MAX_LIVES ∧
    (startRound s).player.score = 0 ∧
    (startRound s).phase = Phase.PHASE_PLAY ∧
    (startRound s).timeLeft = ROUND_TIME_SEC ∧
    (startRound s).obstacles = s.obstacles ∧
    (startRound s).collectibles = s.collectibles ∧
    (startRound s).powerups = s.powerups :=
  ⟨rfl, rfl, rfl, rfl, rfl, rfl, rfl⟩

/-- Witness for C7 at a concrete Win-phase state. -/
theorem C7_round_reset_witness :
    (wstate7.phase = Phase.PHASE_WIN ∨ wstate7.phase = Phase.PHASE_LOSE) ∧
    ((startRound wstate7).player.lives = MAX_LIVES ∧
     (startRound wstate7).player.score = 0 ∧
     (startRound wstate7).phase = Phase.PHASE_PLAY ∧
     (startRound wstate7).timeLeft = ROUND_TIME_SEC ∧
     (startRound wstate7).obstacles = wstate7.obstacles ∧
     (startRound wstate7).collectibles = wstate7.collectibles ∧
     (startRound wstate7).powerups = wstate7.powerups) :=
  ⟨Or.inl rfl, C7_round_reset wstate7 (Or.inl rfl)⟩

/-- C9: The round-start action does not reset nextHitTime, so an
invulnerability window active at restart carries into the new round: a
`tryMove` at any time T earlier than the carried nextHitTime costs no life
(position blocked or not). -/
theorem C9_iframe_carryover (s : GameState) (T dx dy dt : ℚ)
    (hT : T < s.nextHitTime) :
    (startRound s).nextHitTime = s.nextHitTime ∧
    (tryMove { startRound s with timeSec := T } dx dy dt).player.lives =
      ({ startRound s with timeSec := T } : GameState).player.lives :=
  ⟨rfl, tryMove_cool_lives _ dx dy dt hT⟩

/-- Witness for C9: restart with nextHitTime = 10, collision at T = 9.7. -/
theorem C9_iframe_carryover_witness :
    ((97/10 : ℚ) < wstate9.nextHitTime) ∧
    ((startRound wstate9).nextHitTime = wstate9.nextHitTime ∧
     (tryMove { startRound wstate9 with timeSec := 97/10 } 1 0 (1/60)).player.lives =
       ({ startRound wstate9 with timeSec := 97/10 } : GameState).player.lives) :=
  ⟨by norm_num [wstate9, baseState],
   C9_iframe_carryover wstate9 (97/10) 1 0 (1/60) (by norm_num [wstate9, baseState])⟩

/-- C2: On a play tick (with now ≥ roundStart), the step recomputes the
countdown as ROUND_TIME minus the floor of (now − roundStart), clamped at 0;
when it reaches 0 the whole tick only stores the 0 countdown and sets Phase
to Lose, leaving every other component of the state unchanged. -/
theorem C2_countdown_lose (s : GameState) (dt : ℚ)
    (hp : s.phase = Phase.PHASE_PLAY) (hel : s.roundStart ≤ s.timeSec) :
    (updateGame s dt).timeLeft =
      max 0 (ROUND_TIME_SEC - ⌊s.timeSec - s.roundStart⌋) ∧
    (ROUND_TIME_SEC - ⌊s.timeSec - s.roundStart⌋ ≤ 0 →
      updateGame s dt = { s with timeLeft := 0, phase := Phase.PHASE_LOSE }) := by
  have htr : truncQ (s.timeSec - s.roundStart) = ⌊s.timeSec - s.roundStart⌋ :=
    truncQ_of_nonneg _ (by linarith)
  have hcr : clampRemain s = max 0 (ROUND_TIME_SEC - ⌊s.timeSec - s.roundStart⌋) := by
    rw [clampRemain_eq_max, htr]
  constructor
  · by_cases h : clampRemain s ≤ 0
    · rw [updateGame_timeout s dt hp h]
      exact hcr
    · push_neg at h
      rw [updateGame_play s dt hp h]
      simp only [targetCheck_timeLeft, powerupPass_timeLeft, collectPass_timeLeft,
        moveStage, tryMove_timeLeft, expireShield_timeLeft]
      exact hcr
  · intro hle
    have h0 : clampRemain s ≤ 0 := by
      rw [hcr]
      omega
    have h00 : clampRemain s = 0 := le_antisymm h0 (clampRemain_nonneg s)
    rw [updateGame_timeout s dt hp h0, h00]

/-- Witness for C2: at elapsed time 60 the tick sets timeLeft to 0 and loses. -/
theorem C2_countdown_lose_witness :
    (wstate2.phase = Phase.PHASE_PLAY ∧ wstate2.roundStart ≤ wstate2.timeSec) ∧
    ((updateGame wstate2 (1/60)).timeLeft =
       max 0 (ROUND_TIME_SEC - ⌊wstate2.timeSec - wstate2.roundStart⌋) ∧
     (ROUND_TIME_SEC - ⌊wstate2.timeSec - wstate2.roundStart⌋ ≤ 0 →
       updateGame wstate2 (1/60) =
         { wstate2 with timeLeft := 0, phase := Phase.PHASE_LOSE })) :=
  ⟨⟨rfl, by norm_num [wstate2, baseState]⟩,
   C2_countdown_lose wstate2 (1/60) rfl (by norm_num [wstate2, baseState])⟩


lemma expireShield_eq_of_unshielded (s : GameState)
    (h : s.player.shielded = false ∨ s.player.shieldUntil < s.timeSec) :
    expireShield s = { s with player := { s.player with shielded := false } } := by
  unfold expireShield
  split
  · rfl
  · rename_i hc
    rcases h with h | h
    · conv_rhs => rw [← h]
    · exact absurd h hc

/-- C1: For every play-phase tick whose candidate position is blocked by an
obstacle, the whole simulation step leaves the position of the player unchanged;
if additionally now ≥ nextHitTime, the player is (effectively) unshielded and
has a life to lose, lives decrease by exactly 1 and nextHitTime becomes
now + 0.5s; and any `tryMove` at a time before its nextHitTime never costs a
life, so two hits within 0.5s of each other cost only one life. -/
theorem C1_blocked_hit (s : GameState) (dt : ℚ)
    (hp : s.phase = Phase.PHASE_PLAY)
    (ht : 0 < clampRemain s)
    (hb : blocked s ((velocity s).1 * dt) ((velocity s).2 * dt) = true) :
    ((updateGame s dt).player.x = s.player.x ∧
     (updateGame s dt).player.y = s.player.y) ∧
    ((s.player.shielded = false ∨ s.player.shieldUntil < s.timeSec) →
      s.nextHitTime ≤ s.timeSec → 1 ≤ s.player.lives →
      (updateGame s dt).player.lives = s.player.lives - 1 ∧
      (updateGame s dt).nextHitTime = s.timeSec + 1/2) ∧
    (∀ s2 : GameState, ∀ dx2 dy2 dt2 : ℚ, s2.timeSec < s2.nextHitTime →
      (tryMove s2 dx2 dy2 dt2).player.lives = s2.player.lives) := by
  rw [updateGame_play s dt hp ht]
  have hbE : blocked (expireShield { s with timeLeft := clampRemain s })
      ((velocity (expireShield { s with timeLeft := clampRemain s })).1 * dt)
      ((velocity (expireShield { s with timeLeft := clampRemain s })).2 * dt) = true := by
    rw [velocity_expireShield, velocity_setTimeLeft, blocked_expireShield,
      blocked_setTimeLeft]
    exact hb
  refine ⟨?_, ?_, fun s2 dx2 dy2 dt2 h => tryMove_cool_lives s2 dx2 dy2 dt2 h⟩
  · have hpos := tryMove_blocked_pos (expireShield { s with timeLeft := clampRemain s })
      _ _ dt hbE
    constructor
    · simp only [targetCheck_player, moveStage, powerupPass_player_x, collectPass_player_x]
      rw [hpos.1]
      simp
    · simp only [targetCheck_player, moveStage, powerupPass_player_y, collectPass_player_y]
      rw [hpos.2]
      simp
  · intro hsh hcd hl
    have hE : expireShield { s with timeLeft := clampRemain s } =
        { s with timeLeft := clampRemain s,
                 player := { s.player with shielded := false } } :=
      expireShield_eq_of_unshielded _ hsh
    rw [hE] at hbE
    have hM := tryMove_hit_eq
      ({ s with timeLeft := clampRemain s,
                player := { s.player with shielded := false } } : GameState)
      _ _ dt hbE rfl hcd hl
    constructor
    · simp only [targetCheck_player, moveStage, powerupPass_player_lives,
        collectPass_player_lives]
      rw [hE, hM]
    · simp only [targetCheck_nextHitTime, moveStage, powerupPass_nextHitTime,
        collectPass_nextHitTime]
      rw [hE, hM]


/-- Witness for C1: blocked tick at a concrete state loses exactly one life
and leaves the position unchanged. -/
theorem C1_blocked_hit_witness :
    (wstate1.phase = Phase.PHASE_PLAY ∧ 0 < clampRemain wstate1 ∧
     blocked wstate1 ((velocity wstate1).1 * (1/60))
       ((velocity wstate1).2 * (1/60)) = true) ∧
    ((updateGame wstate1 (1/60)).player.x = wstate1.player.x ∧
     (updateGame wstate1 (1/60)).player.y = wstate1.player.y) ∧
    ((updateGame wstate1 (1/60)).player.lives = wstate1.player.lives - 1 ∧
     (updateGame wstate1 (1/60)).nextHitTime = wstate1.timeSec + 1/2) := by
  have ht : 0 < clampRemain wstate1 := by
    norm_num [clampRemain, truncQ, wstate1, baseState, ROUND_TIME_SEC]
  have hb : blocked wstate1 ((velocity wstate1).1 * (1/60))
      ((velocity wstate1).2 * (1/60)) = true := by
    norm_num [blocked, blockedBy, candX, candY, clampf, dist2, velocity,
      currentSpeed, wstate1, baseState, W, GAME_Y0, GAME_Y1, BOT_H, Hwin,
      TOP_H, PLAYER_SPEED, SPEED_BOOST]
  have h := C1_blocked_hit wstate1 (1/60) rfl ht hb
  exact ⟨⟨rfl, ht, hb⟩, h.1,
    h.2.1 (Or.inl rfl) (by norm_num [wstate1, baseState])
      (by norm_num [wstate1, baseState])⟩

/-- C10: When the blocked-movement check depletes the last life (setting the
phase to Lose inside the movement stage) and the player also overlaps the
target, the later win check overwrites the phase: the tick ends in Win. -/
theorem C10_win_overrides_lose (s : GameState) (dt : ℚ)
    (hp : s.phase = Phase.PHASE_PLAY) (ht : 0 < clampRemain s)
    (hb : blocked s ((velocity s).1 * dt) ((velocity s).2 * dt) = true)
    (hsh : s.player.shielded = false ∨ s.player.shieldUntil < s.timeSec)
    (hcd : s.nextHitTime ≤ s.timeSec)
    (hl : s.player.lives = 1)
    (hwin : intersectCircleCircle s.player.x s.player.y s.player.r
      ((bezierPoint s.target.t s.target.p0 s.target.p1 s.target.p2 s.target.p3).1 : ℚ)
      ((bezierPoint s.target.t s.target.p0 s.target.p1 s.target.p2 s.target.p3).2 : ℚ)
      s.target.r = true) :
    (moveStage { s with timeLeft := clampRemain s } dt).phase = Phase.PHASE_LOSE ∧
    (updateGame s dt).phase = Phase.PHASE_WIN := by
  have hbE : blocked (expireShield { s with timeLeft := clampRemain s })
      ((velocity (expireShield { s with timeLeft := clampRemain s })).1 * dt)
      ((velocity (expireShield { s with timeLeft := clampRemain s })).2 * dt) = true := by
    rw [velocity_expireShield, velocity_setTimeLeft, blocked_expireShield,
      blocked_setTimeLeft]
    exact hb
  have hE : expireShield { s with timeLeft := clampRemain s } =
      { s with timeLeft := clampRemain s,
               player := { s.player with shielded := false } } :=
    expireShield_eq_of_unshielded _ hsh
  rw [hE] at hbE
  have hM := tryMove_hit_eq _ _ _ dt hbE rfl hcd
    (by show (1 : ℤ) ≤ s.player.lives; omega)
  constructor
  · simp only [moveStage]
    rw [hE, hM]
    show (if s.player.lives = 1 then Phase.PHASE_LOSE else s.phase) = Phase.PHASE_LOSE
    rw [if_pos hl]
  · rw [updateGame_play s dt hp ht]
    simp only [moveStage]
    rw [hE, hM]
    apply targetCheck_phase_win
    simp only [powerupPass_player_x, powerupPass_player_y, powerupPass_player_r,
      collectPass_player_x, collectPass_player_y, collectPass_player_r,
      powerupPass_targetF, collectPass_targetF]
    exact hwin

/-- Witness for C10 at a concrete state: the movement stage loses, the tick
ends in Win. -/
theorem C10_win_overrides_lose_witness :
    (wstate10.phase = Phase.PHASE_PLAY ∧ 0 < clampRemain wstate10 ∧
     wstate10.player.lives = 1) ∧
    ((moveStage { wstate10 with timeLeft := clampRemain wstate10 } (1/60)).phase =
       Phase.PHASE_LOSE ∧
     (updateGame wstate10 (1/60)).phase = Phase.PHASE_WIN) := by
  have ht : 0 < clampRemain wstate10 := by
    norm_num [clampRemain, truncQ, wstate10, baseState, ROUND_TIME_SEC]
  have hb : blocked wstate10 ((velocity wstate10).1 * (1/60))
      ((velocity wstate10).2 * (1/60)) = true := by
    norm_num [blocked, blockedBy, candX, candY, clampf, dist2, velocity,
      currentSpeed, wstate10, baseState, W, GAME_Y0, GAME_Y1, BOT_H, Hwin,
      TOP_H, PLAYER_SPEED, SPEED_BOOST]
  have hwin : intersectCircleCircle wstate10.player.x wstate10.player.y
      wstate10.player.r
      ((bezierPoint wstate10.target.t wstate10.target.p0 wstate10.target.p1
        wstate10.target.p2 wstate10.target.p3).1 : ℚ)
      ((bezierPoint wstate10.target.t wstate10.target.p0 wstate10.target.p1
        wstate10.target.p2 wstate10.target.p3).2 : ℚ)
      wstate10.target.r = true := by
    norm_num [intersectCircleCircle, dist2, bezierPoint, truncQ, wstate10, baseState]
  have h := C10_win_overrides_lose wstate10 (1/60) rfl ht hb (Or.inl rfl)
    (by norm_num [wstate10, baseState]) rfl hwin
  exact ⟨⟨rfl, ht, rfl⟩, h⟩


/-- C3: On a play tick (countdown not expired), with `m` the state after the
movement stage, the step raises the score by exactly 5 per collectible whose
circle overlaps that of the player, and the surviving collectible list is exactly
the filter of the non-overlapping ones — no skip, no double count, despite
the erase-during-iteration loop in the source. -/
theorem C3_collect_exact (s : GameState) (dt : ℚ) (m : GameState)
    (hp : s.phase = Phase.PHASE_PLAY) (ht : 0 < clampRemain s)
    (hm : m = moveStage { s with timeLeft := clampRemain s } dt) :
    (updateGame s dt).player.score =
      s.player.score +
        5 * (s.collectibles.countP (fun c =>
          intersectCircleCircle m.player.x m.player.y m.player.r c.x c.y c.r) : ℤ) ∧
    (updateGame s dt).collectibles =
      s.collectibles.filter (fun c =>
        !intersectCircleCircle m.player.x m.player.y m.player.r c.x c.y c.r) := by
  have hcols : m.collectibles = s.collectibles := by
    rw [hm]
    simp [moveStage]
  have hscore : m.player.score = s.player.score := by
    rw [hm]
    simp [moveStage]
  rw [updateGame_play s dt hp ht, ← hm]
  constructor
  · simp only [targetCheck_player, powerupPass_player_score, collectPass_score]
    rw [collectLoop_eq, hcols, hscore]
  · simp only [targetCheck_collectibles, powerupPass_collectibles,
      collectPass_collectibles]
    rw [collectLoop_eq, hcols]

/-- Witness for C3: exactly the overlapped collectible is consumed, scoring 5. -/
theorem C3_collect_exact_witness :
    (wstate3.phase = Phase.PHASE_PLAY ∧ 0 < clampRemain wstate3) ∧
    (updateGame wstate3 (1/60)).player.score = 5 ∧
    (updateGame wstate3 (1/60)).collectibles = [⟨800, 500, 14, ObjType.OBJ_COLLECT⟩] := by
  have ht : 0 < clampRemain wstate3 := by
    norm_num [clampRemain, truncQ, wstate3, baseState, ROUND_TIME_SEC]
  have h := C3_collect_exact wstate3 (1/60)
    (moveStage { wstate3 with timeLeft := clampRemain wstate3 } (1/60)) rfl ht rfl
  have hmround : moveStage { wstate3 with timeLeft := clampRemain wstate3 } (1/60) =
      { wstate3 with timeLeft := clampRemain wstate3 } := by
    have hfree : blocked ({ wstate3 with timeLeft := clampRemain wstate3 } : GameState)
        ((velocity ({ wstate3 with timeLeft := clampRemain wstate3 } : GameState)).1 * (1/60))
        ((velocity ({ wstate3 with timeLeft := clampRemain wstate3 } : GameState)).2 * (1/60)) =
        false := by
      norm_num [blocked, wstate3, baseState]
    have hEn : expireShield ({ wstate3 with timeLeft := clampRemain wstate3 } : GameState) =
        ({ wstate3 with timeLeft := clampRemain wstate3 } : GameState) := by
      unfold expireShield
      rw [if_neg]
      norm_num [wstate3, baseState]
    simp only [moveStage, hEn]
    rw [tryMove_free_eq _ _ _ _ hfree]
    norm_num [candX, candY, clampf, velocity, currentSpeed, wstate3, baseState,
      W, GAME_Y0, GAME_Y1, BOT_H, Hwin, TOP_H, PLAYER_SPEED, SPEED_BOOST]
  refine ⟨⟨rfl, ht⟩, ?_, ?_⟩
  · rw [h.1, hmround]
    norm_num [intersectCircleCircle, dist2, wstate3, baseState, List.countP_cons]
  · rw [h.2, hmround]
    norm_num [intersectCircleCircle, dist2, wstate3, baseState, List.filter]


lemma overlapsAny_true_iff (s : GameState) (x y r : ℚ) :
    overlapsAny s x y r = true ↔
      ((∃ o ∈ s.obstacles,
          dist2 x y o.x o.y < (r + PLACE_MIN_DIST) * (r + PLACE_MIN_DIST)) ∨
       (∃ c ∈ s.collectibles,
          dist2 x y c.x c.y < (r + PLACE_MIN_DIST) * (r + PLACE_MIN_DIST)) ∨
       (∃ p ∈ s.powerups,
          dist2 x y p.x p.y < (r + PLACE_MIN_DIST) * (r + PLACE_MIN_DIST)) ∨
       dist2 x y s.player.x s.player.y < (r + PLACE_MIN_DIST) * (r + PLACE_MIN_DIST) ∨
       dist2 x y
         ((bezierPoint s.target.t s.target.p0 s.target.p1 s.target.p2 s.target.p3).1 : ℚ)
         ((bezierPoint s.target.t s.target.p0 s.target.p1 s.target.p2 s.target.p3).2 : ℚ)
           < (r + PLACE_MIN_DIST) * (r + PLACE_MIN_DIST)) := by
  unfold overlapsAny
  simp [List.any_eq_true]
  simp [or_assoc]

/-- C5: For an arena click in the edit phase with a placement kind selected,
the placement is rejected — all collections left unchanged — exactly when the
candidate point is within (candidate radius + PLACE_MIN_DIST) of some existing
obstacle, collectible, power-up, the player, or the derived position of the target
(`overlapsAny`, stated with squared distances); when it is at least that far
from all of them, the click appends the new object to the kind-appropriate
collection and changes nothing else. -/
theorem C5_placement_guard (s : GameState) (x0 y0 : ℤ)
    (hphase : s.phase = Phase.PHASE_EDIT)
    (hpm : s.placeMode ≠ PlaceMode.PLACE_NONE)
    (hpal : BOT_H < Hwin - (y0 : ℚ))
    (harena : inGameArea (x0 : ℚ) (Hwin - (y0 : ℚ)) = true) :
    (overlapsAny s (x0 : ℚ) (Hwin - (y0 : ℚ)) (modeRadius s.placeMode) = true ↔
      ((∃ o ∈ s.obstacles, dist2 (x0 : ℚ) (Hwin - (y0 : ℚ)) o.x o.y <
          (modeRadius s.placeMode + PLACE_MIN_DIST) * (modeRadius s.placeMode + PLACE_MIN_DIST)) ∨
       (∃ c ∈ s.collectibles, dist2 (x0 : ℚ) (Hwin - (y0 : ℚ)) c.x c.y <
          (modeRadius s.placeMode + PLACE_MIN_DIST) * (modeRadius s.placeMode + PLACE_MIN_DIST)) ∨
       (∃ p ∈ s.powerups, dist2 (x0 : ℚ) (Hwin - (y0 : ℚ)) p.x p.y <
          (modeRadius s.placeMode + PLACE_MIN_DIST) * (modeRadius s.placeMode + PLACE_MIN_DIST)) ∨
       dist2 (x0 : ℚ) (Hwin - (y0 : ℚ)) s.player.x s.player.y <
          (modeRadius s.placeMode + PLACE_MIN_DIST) * (modeRadius s.placeMode + PLACE_MIN_DIST) ∨
       dist2 (x0 : ℚ) (Hwin - (y0 : ℚ))
         ((bezierPoint s.target.t s.target.p0 s.target.p1 s.target.p2 s.target.p3).1 : ℚ)
         ((bezierPoint s.target.t s.target.p0 s.target.p1 s.target.p2 s.target.p3).2 : ℚ) <
          (modeRadius s.placeMode + PLACE_MIN_DIST) * (modeRadius s.placeMode + PLACE_MIN_DIST))) ∧
    (overlapsAny s (x0 : ℚ) (Hwin - (y0 : ℚ)) (modeRadius s.placeMode) = true →
      mouseDown s x0 y0 = s) ∧
    (overlapsAny s (x0 : ℚ) (Hwin - (y0 : ℚ)) (modeRadius s.placeMode) = false →
      (s.placeMode = PlaceMode.PLACE_OBS →
        mouseDown s x0 y0 = { s with obstacles := s.obstacles ++
          [⟨(x0 : ℚ), Hwin - (y0 : ℚ), 18, ObjType.OBJ_OBSTACLE⟩] }) ∧
      (s.placeMode = PlaceMode.PLACE_COL →
        mouseDown s x0 y0 = { s with collectibles := s.collectibles ++
          [⟨(x0 : ℚ), Hwin - (y0 : ℚ), 14, ObjType.OBJ_COLLECT⟩] }) ∧
      (s.placeMode = PlaceMode.PLACE_PU_SPEED →
        mouseDown s x0 y0 = { s with powerups := s.powerups ++
          [⟨(x0 : ℚ), Hwin - (y0 : ℚ), 14, ObjType.OBJ_PU_SPEED⟩] }) ∧
      (s.placeMode = PlaceMode.PLACE_PU_SHIELD →
        mouseDown s x0 y0 = { s with powerups := s.powerups ++
          [⟨(x0 : ℚ), Hwin - (y0 : ℚ), 14, ObjType.OBJ_PU_SHIELD⟩] })) := by
  have hentry : mouseDown s x0 y0 = placeAt s (x0 : ℚ) (Hwin - (y0 : ℚ)) := by
    unfold mouseDown
    rw [if_neg (not_le.2 hpal), if_pos ⟨hphase, harena⟩]
  refine ⟨overlapsAny_true_iff s _ _ _, ?_, ?_⟩
  · intro hov
    rw [hentry]
    unfold placeAt
    cases hmode : s.placeMode
    · exact absurd hmode hpm
    · rw [hmode] at hov
      simp only [modeRadius] at hov
      simp [hmode, hov]
    · rw [hmode] at hov
      simp only [modeRadius] at hov
      simp [hmode, hov]
    · rw [hmode] at hov
      simp only [modeRadius] at hov
      simp [hmode, hov]
    · rw [hmode] at hov
      simp only [modeRadius] at hov
      simp [hmode, hov]
  · intro hov
    refine ⟨?_, ?_, ?_, ?_⟩ <;> intro hmode <;> rw [hentry] <;> unfold placeAt <;>
      rw [hmode] at hov <;> simp only [modeRadius] at hov <;> simp [hmode, hov]

lemma mouseDown_not_edit (s : GameState) (x0 y0 : ℤ)
    (h : s.phase ≠ Phase.PHASE_EDIT) :
    (mouseDown s x0 y0).obstacles = s.obstacles ∧
    (mouseDown s x0 y0).collectibles = s.collectibles ∧
    (mouseDown s x0 y0).powerups = s.powerups := by
  by_cases h1 : Hwin - (y0 : ℚ) ≤ BOT_H
  · unfold mouseDown
    rw [if_pos h1]
    exact ⟨rfl, rfl, rfl⟩
  · have h2 : ¬(s.phase = Phase.PHASE_EDIT ∧
        inGameArea (x0 : ℚ) (Hwin - (y0 : ℚ)) = true) := fun hc => h hc.1
    unfold mouseDown
    rw [if_neg h1, if_neg h2]
    exact ⟨rfl, rfl, rfl⟩

/-- Counterexample to C8 as stated: there is no click at all — arena or not,
any placement kind selected — that creates an object while Phase is not Edit;
the `Mouse` handler guards placement with `phase == PHASE_EDIT`. -/
theorem C8_counterexample :
    ¬ ∃ (s : GameState) (x0 y0 : ℤ),
      s.placeMode ≠ PlaceMode.PLACE_NONE ∧ s.phase ≠ Phase.PHASE_EDIT ∧
      BOT_H < Hwin - (y0 : ℚ) ∧ inGameArea (x0 : ℚ) (Hwin - (y0 : ℚ)) = true ∧
      ((mouseDown s x0 y0).obstacles ≠ s.obstacles ∨
       (mouseDown s x0 y0).collectibles ≠ s.collectibles ∨
       (mouseDown s x0 y0).powerups ≠ s.powerups) := by
  rintro ⟨s, x0, y0, -, hph, -, -, hch⟩
  have h3 := mouseDown_not_edit s x0 y0 hph
  rcases hch with h | h | h
  · exact h h3.1
  · exact h h3.2.1
  · exact h h3.2.2

/-- C8 (amended): object creation by the placement subsystem is prevented
outside the edit phase — a left click while Phase ≠ Edit never changes the
obstacle, collectible, or power-up collections. -/
theorem C8_no_placement_outside_edit (s : GameState) (x0 y0 : ℤ)
    (h : s.phase ≠ Phase.PHASE_EDIT) :
    (mouseDown s x0 y0).obstacles = s.obstacles ∧
    (mouseDown s x0 y0).collectibles = s.collectibles ∧
    (mouseDown s x0 y0).powerups = s.powerups :=
  mouseDown_not_edit s x0 y0 h

/-- Witness for the amended C8 at a concrete play-phase state and arena click. -/
theorem C8_no_placement_outside_edit_witness :
    (wstate8.phase ≠ Phase.PHASE_EDIT) ∧
    ((mouseDown wstate8 500 400).obstacles = wstate8.obstacles ∧
     (mouseDown wstate8 500 400).collectibles = wstate8.collectibles ∧
     (mouseDown wstate8 500 400).powerups = wstate8.powerups) :=
  ⟨by decide, C8_no_placement_outside_edit wstate8 500 400 (by decide)⟩


/-- Witness for C5: a click far from every entity succeeds and appends the
obstacle; the hypotheses of the placement theorem hold at this input. -/
theorem C5_placement_guard_witness :
    (wstate5.phase = Phase.PHASE_EDIT ∧ wstate5.placeMode ≠ PlaceMode.PLACE_NONE ∧
     BOT_H < Hwin - ((400 : ℤ) : ℚ) ∧
     inGameArea ((200 : ℤ) : ℚ) (Hwin - ((400 : ℤ) : ℚ)) = true) ∧
    overlapsAny wstate5 ((200 : ℤ) : ℚ) (Hwin - ((400 : ℤ) : ℚ))
      (modeRadius wstate5.placeMode) = false ∧
    mouseDown wstate5 200 400 =
      { wstate5 with obstacles := wstate5.obstacles ++
          [⟨((200 : ℤ) : ℚ), Hwin - ((400 : ℤ) : ℚ), 18, ObjType.OBJ_OBSTACLE⟩] } := by
  have hpal : BOT_H < Hwin - ((400 : ℤ) : ℚ) := by norm_num [BOT_H, Hwin]
  have harena : inGameArea ((200 : ℤ) : ℚ) (Hwin - ((400 : ℤ) : ℚ)) = true := by
    norm_num [inGameArea, W, GAME_Y0, GAME_Y1, BOT_H, Hwin, TOP_H]
  have hov : overlapsAny wstate5 ((200 : ℤ) : ℚ) (Hwin - ((400 : ℤ) : ℚ))
      (modeRadius wstate5.placeMode) = false := by
    norm_num [overlapsAny, dist2, bezierPoint, truncQ, modeRadius, wstate5,
      baseState, PLACE_MIN_DIST, Hwin]
  have h := C5_placement_guard wstate5 200 400 rfl (by decide) hpal harena
  exact ⟨⟨rfl, by decide, hpal, harena⟩, hov, (h.2.2 hov).1 rfl⟩

